import Mathlib

/-!
Shallow embedding of the browse-together-mcp browser proxy core
(`src/browser.ts`, `src/types.ts`).

The Playwright engine is opaque to the proxy: every engine-level outcome
(page-validity probes, page creation, navigation, locator actions, frame
lookups, close calls) is supplied by an `Engine` oracle.  The module-level
mutable globals of `browser.ts` (`browserContext`, `pages`,
`isShuttingDown`) become an explicit `ProxyState` threaded through the
operations, extended with append-only logs that record which engine calls
were issued, which pages were created and which handles were closed, so
that statements such as "no engine call is made" are expressible.
-/

set_option maxHeartbeats 1000000

namespace BrowseTogether

/-- JSON-like values, used for request bodies and command payloads. -/
inductive Json where
  | str (s : String)
  | num (n : Int)
  | jbool (b : Bool)
  | null
  | arr (xs : List Json)
  | obj (fields : List (String × Json))

/-- A page handle: numeric identity of an underlying Playwright page. -/
abbrev Handle := Nat

/-- Name and URL of a frame, as reported by `page.frames()`. -/
structure FrameInfo where
  name : String
  url : String
  deriving DecidableEq

/-- One call into the browser engine, recorded in the engine log. -/
inductive EngineCall where
  | launch
  | probe (h : Handle)
  | newPage (h : Handle)
  | initPage (h : Handle)
  | goto (h : Handle) (url : String)
  | click (h : Handle) (selector : String) (frame : Option String)
  | fill (h : Handle) (selector : String) (frame : Option String)
  | screenshot (h : Handle)
  | content (h : Handle) (frame : Option String)
  | title (h : Handle)
  | evalIn (h : Handle) (frame : Option String) (expression : String)
  | close (h : Handle)
  | ctxClose
  deriving DecidableEq

/-- Oracle describing the behaviour of the opaque browser engine: which probes
report valid, which calls fail and with what message, which frames exist. -/
structure Engine where
  valid : Handle → Bool
  launchErr : Option String
  newPageErr : Handle → Option String
  initErr : Handle → Option String
  gotoResult : Handle → String → Except String Json
  clickErr : Handle → String → Option String → Option String
  fillErr : Handle → String → String → Option String → Option String
  frameSelectorResolvable : Handle → String → Bool
  frameFailMsg : Handle → String → String
  screenshotResult : Handle → Except String String
  contentResult : Handle → Option String → Except String String
  titleResult : Handle → Except String String
  evalResult : Handle → Option String → String → Except String Json
  closeErr : Handle → Option String
  ctxCloseErr : Option String
  frames : Handle → List FrameInfo
  frameByName : Handle → String → Bool
  frameByUrl : Handle → String → Bool

/-- The mutable globals of the proxy (`browserContext`, `pages`, `isShuttingDown`)
made explicit, plus observation logs. `pages` is the insertion-ordered map
from page identifier to handle; `closeHandlers` records the identifiers and
handles for which a `page.on close` eviction handler was registered;
`initialized` records pages on which `initializePage` completed. -/
structure ProxyState where
  browserContext : Option Nat
  pages : List (String × Handle)
  isShuttingDown : Bool
  nextHandle : Handle
  initialized : List Handle
  closeHandlers : List (String × Handle)
  newPageLog : List Handle
  closeLog : List Handle
  ctxCloseLog : Nat
  engineLog : List EngineCall
  deriving DecidableEq

/-- The state at process start, before `setupBrowser` runs. -/
def initialState : ProxyState :=
  { browserContext := none
    pages := []
    isShuttingDown := false
    nextHandle := 1
    initialized := []
    closeHandlers := []
    newPageLog := []
    closeLog := []
    ctxCloseLog := 0
    engineLog := [] }

/-- Append an engine call to the observation log. -/
def logCall (s : ProxyState) (c : EngineCall) : ProxyState :=
  { s with engineLog := s.engineLog ++ [c] }

/-- Lookup in the page registry (`pages[pageId]`). -/
def lookupPage : List (String × Handle) → String → Option Handle
  | [], _ => none
  | (k, h) :: rest, pid => if k = pid then some h else lookupPage rest pid

/-- Delete from the page registry (`delete pages[pageId]`). -/
def removePage (ps : List (String × Handle)) (pid : String) : List (String × Handle) :=
  ps.filter (fun kv => kv.1 ≠ pid)

/-- Insert into the page registry (`pages[pageId] = page`): update in place
when the key is present, append otherwise (JS object key order). -/
def insertPage : List (String × Handle) → String → Handle → List (String × Handle)
  | [], pid, h => [(pid, h)]
  | (k, v) :: rest, pid, h =>
    if k = pid then (k, h) :: rest else (k, v) :: insertPage rest pid h

/-- When a page handle closes, every registered close handler for it fires
and evicts its entry from the registry. -/
def fireCloseHandlers (s : ProxyState) (h : Handle) : ProxyState :=
  { s with pages := s.pages.filter (fun kv => ¬ ((kv.1, h) ∈ s.closeHandlers)) }

/-- Substring test on character lists: does the needle occur in the haystack? -/
def infixAux (needle : List Char) : List Char → Bool
  | [] => needle.isEmpty
  | c :: rest => needle.isPrefixOf (c :: rest) || infixAux needle rest

/-- `error.message.includes(sub)` of JavaScript. -/
def containsSubstr (s sub : String) : Bool :=
  infixAux sub.toList s.toList

/-- The frame enumeration built on the failure path:
`page.frames().map(f => f.name() || f.url()).filter(name => name).join(", ")`. -/
def availableFramesStr (eng : Engine) (h : Handle) : String :=
  String.intercalate ", "
    (((eng.frames h).map (fun f => if f.name = "" then f.url else f.name)).filter
      (fun s => s ≠ ""))

/-- The frame-not-found error message constructed by `executeCommand`. -/
def frameNotFoundMsg (eng : Engine) (h : Handle) (f : String) : String :=
  "Frame \"" ++ f ++ "\" not found. Available frames: " ++ availableFramesStr eng h

/-- Page creation path of `getOrCreatePage` (browser.ts lines 215-229):
`browserContext.newPage()`, then `initializePage(page)`, then register the
close handler and insert into the registry.  A thrown error carries the
state at the throw point. -/
def createNewPage (eng : Engine) (s : ProxyState) (pid : String) :
    Except (String × ProxyState) (Handle × ProxyState) :=
  let h := s.nextHandle
  let s1 := logCall s (EngineCall.newPage h)
  match eng.newPageErr h with
  | some e => .error (e, s1)
  | none =>
    let s2 := { s1 with nextHandle := h + 1, newPageLog := s1.newPageLog ++ [h] }
    let s3 := logCall s2 (EngineCall.initPage h)
    match eng.initErr h with
    | some e => .error (e, s3)
    | none =>
      let s4 := { s3 with
                  initialized := s3.initialized ++ [h]
                  closeHandlers := s3.closeHandlers ++ [(pid, h)]
                  pages := insertPage s3.pages pid h }
      .ok (h, s4)

/-- `getOrCreatePage` (browser.ts lines 199-230): fail if the context is not
initialized; reuse a registered handle when the validity probe reports it
valid; otherwise evict the stale entry and create a replacement. -/
def getOrCreatePage (eng : Engine) (s : ProxyState) (pid : String) :
    Except (String × ProxyState) (Handle × ProxyState) :=
  match s.browserContext with
  | none => .error ("Browser context not initialized", s)
  | some _ =>
    match lookupPage s.pages pid with
    | some h =>
      let s1 := logCall s (EngineCall.probe h)
      if eng.valid h then .ok (h, s1)
      else createNewPage eng { s1 with pages := removePage s1.pages pid } pid
    | none => createNewPage eng s pid

/-- The validated command type, one constructor per variant of
`browserCommandSchema` (src/types.ts lines 11-68).  Every variant also
carries the optional base `timeout`. -/
inductive BrowserCommand where
  | goto (url : String) (params : Option Json) (timeout : Option Int)
  | click (selector : String) (frame : Option String) (params : Option Json)
      (timeout : Option Int)
  | fill (selector : String) (frame : Option String) (text : String)
      (params : Option Json) (timeout : Option Int)
  | screenshot (params : Option Json) (timeout : Option Int)
  | content (frame : Option String) (timeout : Option Int)
  | title (timeout : Option Int)
  | evaluate (frame : Option String) (expression : String) (timeout : Option Int)
  | closePage (timeout : Option Int)

/-- The uniform result envelope: `{success: true, result?}` or
`{success: false, error}`. -/
inductive ExecutionResult where
  | success (result : Option Json)
  | failure (error : String)

/-- Outcome of `locator.click(params)` behind `getFrameLocator`: when the
frame path does not resolve the engine call always fails (with the message chosen by the engine); otherwise the engine decides. `none` means success. -/
def clickOutcome (eng : Engine) (h : Handle) (sel : String)
    (frame : Option String) : Option String :=
  match frame with
  | none => eng.clickErr h sel none
  | some f =>
    if eng.frameSelectorResolvable h f then eng.clickErr h sel (some f)
    else some (eng.frameFailMsg h f)

/-- Outcome of `locator.fill(text, params)` behind `getFrameLocator`. -/
def fillOutcome (eng : Engine) (h : Handle) (sel txt : String)
    (frame : Option String) : Option String :=
  match frame with
  | none => eng.fillErr h sel txt none
  | some f =>
    if eng.frameSelectorResolvable h f then eng.fillErr h sel txt (some f)
    else some (eng.frameFailMsg h f)

/-- The click/fill catch clause: when a `frame` was given and the thrown
message mentions `frameLocator`, rethrow as the frame-not-found message
listing the available frames; otherwise rethrow unchanged. -/
def rethrowFrameErr (eng : Engine) (h : Handle) (frame : Option String)
    (e : String) : String :=
  match frame with
  | some f => if containsSubstr e "frameLocator" then frameNotFoundMsg eng h f else e
  | none => e

/-- `await page.close()` plus the close event: record the close call; on
success the engine fires the close event and registered handlers evict
their registry entries. -/
def doClose (eng : Engine) (s : ProxyState) (h : Handle) :
    Option String × ProxyState :=
  let s1 := { s with closeLog := s.closeLog ++ [h]
                     engineLog := s.engineLog ++ [EngineCall.close h] }
  match eng.closeErr h with
  | some e => (some e, s1)
  | none => (none, fireCloseHandlers s1 h)

/-- The body of the `try` block of `executeCommand` (browser.ts lines
241-359): resolve the page, then switch on the action.  A thrown error
carries the state at the throw point. -/
def executeCommandBody (eng : Engine) (s : ProxyState) (pid : String)
    (cmd : BrowserCommand) :
    Except (String × ProxyState) (Option Json × ProxyState) :=
  match getOrCreatePage eng s pid with
  | .error es => .error es
  | .ok (h, s1) =>
    match cmd with
    | .goto url _ _ =>
      let s2 := logCall s1 (EngineCall.goto h url)
      match eng.gotoResult h url with
      | .ok v => .ok (some v, s2)
      | .error e => .error (e, s2)
    | .click sel frame _ _ =>
      let s2 := logCall s1 (EngineCall.click h sel frame)
      match clickOutcome eng h sel frame with
      | none => .ok (none, s2)
      | some e => .error (rethrowFrameErr eng h frame e, s2)
    | .fill sel frame txt _ _ =>
      let s2 := logCall s1 (EngineCall.fill h sel frame)
      match fillOutcome eng h sel txt frame with
      | none => .ok (none, s2)
      | some e => .error (rethrowFrameErr eng h frame e, s2)
    | .screenshot _ _ =>
      let s2 := logCall s1 (EngineCall.screenshot h)
      match eng.screenshotResult h with
      | .ok b64 =>
        .ok (some (Json.obj [("image", Json.str b64), ("encoding", Json.str "base64")]), s2)
      | .error e => .error (e, s2)
    | .content frame _ =>
      match frame with
      | some f =>
        if eng.frameByName h f || eng.frameByUrl h f then
          let s2 := logCall s1 (EngineCall.content h (some f))
          match eng.contentResult h (some f) with
          | .ok c => .ok (some (Json.str c), s2)
          | .error e => .error (e, s2)
        else .error (frameNotFoundMsg eng h f, s1)
      | none =>
        let s2 := logCall s1 (EngineCall.content h none)
        match eng.contentResult h none with
        | .ok c => .ok (some (Json.str c), s2)
        | .error e => .error (e, s2)
    | .title _ =>
      let s2 := logCall s1 (EngineCall.title h)
      match eng.titleResult h with
      | .ok t => .ok (some (Json.str t), s2)
      | .error e => .error (e, s2)
    | .evaluate frame ex _ =>
      match frame with
      | some f =>
        if eng.frameByName h f then
          let s2 := logCall s1 (EngineCall.evalIn h (some f) ex)
          match eng.evalResult h (some f) ex with
          | .ok v => .ok (some v, s2)
          | .error e => .error (e, s2)
        else .error (frameNotFoundMsg eng h f, s1)
      | none =>
        let s2 := logCall s1 (EngineCall.evalIn h none ex)
        match eng.evalResult h none ex with
        | .ok v => .ok (some v, s2)
        | .error e => .error (e, s2)
    | .closePage _ =>
      match doClose eng s1 h with
      | (some e, s2) => .error (e, s2)
      | (none, s2) => .ok (none, { s2 with pages := removePage s2.pages pid })

/-- `executeCommand` (browser.ts lines 233-366): reject during shutdown,
otherwise run the body and convert any thrown error into the failure
envelope. -/
def executeCommand (eng : Engine) (s : ProxyState) (pid : String)
    (cmd : BrowserCommand) : ExecutionResult × ProxyState :=
  if s.isShuttingDown then (.failure "Server is shutting down", s)
  else
    match executeCommandBody eng s pid cmd with
    | .ok (v, s1) => (.success v, s1)
    | .error (e, s1) => (.failure e, s1)

/-- One iteration of the shutdown page sweep: close the page; on failure
log and continue, on success also delete the registry entry. -/
def shutdownStep (eng : Engine) (s : ProxyState) (entry : String × Handle) :
    ProxyState :=
  match doClose eng s entry.2 with
  | (some _, s1) => s1
  | (none, s1) => { s1 with pages := removePage s1.pages entry.1 }

/-- `shutdown` (browser.ts lines 369-403): no-op when already shutting
down; otherwise set the flag, close every registered page best-effort,
then close the browser context (left non-null when its close throws). -/
def shutdown (eng : Engine) (s : ProxyState) : ProxyState :=
  if s.isShuttingDown then s
  else
    let s0 := { s with isShuttingDown := true }
    let s1 := s0.pages.foldl (shutdownStep eng) s0
    match s1.browserContext with
    | none => s1
    | some _ =>
      let s2 := { s1 with ctxCloseLog := s1.ctxCloseLog + 1
                          engineLog := s1.engineLog ++ [EngineCall.ctxClose] }
      match eng.ctxCloseErr with
      | some _ => s2
      | none => { s2 with browserContext := none }

/-- `setupBrowser` (browser.ts lines 53-92): return the existing context if
any; otherwise launch the persistent context and register a default page
under the identifier `default` — with no `initializePage` call and no close
handler. -/
def setupBrowser (eng : Engine) (s : ProxyState) :
    Except (String × ProxyState) (Nat × ProxyState) :=
  match s.browserContext with
  | some c => .ok (c, s)
  | none =>
    let s1 := logCall s EngineCall.launch
    match eng.launchErr with
    | some e => .error (e, s1)
    | none =>
      let s2 := { s1 with browserContext := some 0 }
      let h := s2.nextHandle
      let s3 := logCall s2 (EngineCall.newPage h)
      match eng.newPageErr h with
      | some e => .error (e, s3)
      | none =>
        let s4 := { s3 with nextHandle := h + 1
                            newPageLog := s3.newPageLog ++ [h]
                            pages := insertPage s3.pages "default" h }
        .ok (0, s4)

/-- An externally caused tab close: the only proxy-visible effect is that
registered close handlers fire and evict their entries. -/
def externalClose (s : ProxyState) (h : Handle) : ProxyState :=
  fireCloseHandlers s h

/-- An incoming HTTP request.  `body := none` models a body on which
`req.json()` throws (malformed JSON). -/
structure HttpRequest where
  method : String
  path : String
  authHeader : Option String
  body : Option Json

/-- The response bodies the handler can produce. -/
inductive HttpBody where
  | execResult (r : ExecutionResult)
  | validationError (issues : List String)
  | jsonError
  | unauthorized
  | pagesList (ids : List String)
  | notFound

/-- An HTTP response: status code and body shape. -/
structure HttpResponse where
  status : Nat
  body : HttpBody

/-- JavaScript `s.startsWith(pre)`. -/
def startsWithStr (s pre : String) : Bool :=
  pre.toList.isPrefixOf s.toList

/-- JavaScript `s.slice(n)`. -/
def dropStr (s : String) (n : Nat) : String :=
  String.mk (s.toList.drop n)

/-- Extract the bearer token:
`authHeader?.startsWith("Bearer ") ? authHeader.slice(7) : null`. -/
def bearerToken : Option String → Option String
  | none => none
  | some hdr => if startsWithStr hdr "Bearer " then some (dropStr hdr 7) else none

/-- The guard `!(!token || token !== secret)`: the request carries a
non-empty bearer token equal to the configured secret. -/
def tokenValid (authHeader : Option String) (secret : String) : Bool :=
  match bearerToken authHeader with
  | none => false
  | some t => !(t = "") && t = secret

/-- Lookup a key in a JSON object field list. -/
def lookupField : List (String × Json) → String → Option Json
  | [], _ => none
  | (k, v) :: rest, key => if k = key then some v else lookupField rest key

/-- Scan for the unanchored regex `\/api\/browser\/([^\/]+)` and return the
captured page identifier, if any. -/
def matchBrowserAux : List Char → Option String
  | [] => none
  | c :: rest =>
    if "/api/browser/".toList.isPrefixOf (c :: rest) then
      let seg := ((c :: rest).drop 13).takeWhile (fun ch => ch ≠ '/')
      if seg.isEmpty then matchBrowserAux rest else some (String.mk seg)
    else matchBrowserAux rest

/-- `path.match(/\/api\/browser\/([^\/]+)/)`, capture group 1. -/
def matchBrowserPath (path : String) : Option String :=
  matchBrowserAux path.toList

/-- Validation of the optional positive `timeout` of `baseCommandSchema`. -/
def checkTimeout (fields : List (String × Json)) : List String :=
  match lookupField fields "timeout" with
  | none => []
  | some (Json.num n) =>
    if 0 < n then [] else ["timeout: Number must be greater than 0"]
  | some _ => ["timeout: Expected number"]

/-- Validation of a required `z.string().min(1)` field. -/
def checkStrMin1 (fields : List (String × Json)) (name : String) : List String :=
  match lookupField fields name with
  | none => [name ++ ": Required"]
  | some (Json.str v) =>
    if 1 ≤ v.length then []
    else [name ++ ": String must contain at least 1 character(s)"]
  | some _ => [name ++ ": Expected string"]

/-- Validation of a required `z.string()` field (the `text` of `fill`). -/
def checkReqStr (fields : List (String × Json)) (name : String) : List String :=
  match lookupField fields name with
  | none => [name ++ ": Required"]
  | some (Json.str _) => []
  | some _ => [name ++ ": Expected string"]

/-- Validation of an optional `z.string()` field (the `frame` fields). -/
def checkOptStr (fields : List (String × Json)) (name : String) : List String :=
  match lookupField fields name with
  | none => []
  | some (Json.str _) => []
  | some _ => [name ++ ": Expected string"]

/-- Validation of the optional `params: z.record(z.unknown())` fields. -/
def checkOptRecord (fields : List (String × Json)) : List String :=
  match lookupField fields "params" with
  | none => []
  | some (Json.obj _) => []
  | some _ => ["params: Expected object"]

/-- Validation of `url: z.string().url()`; URL well-formedness itself is
delegated to the opaque `urlOk` predicate. -/
def checkUrl (urlOk : String → Bool) (fields : List (String × Json)) : List String :=
  match lookupField fields "url" with
  | none => ["url: Required"]
  | some (Json.str v) => if urlOk v then [] else ["url: Invalid url"]
  | some _ => ["url: Expected string"]

/-- Validation of the required `params: z.object(\x7b expression \x7d)` of
`evaluate`. -/
def checkEvalParams (fields : List (String × Json)) : List String :=
  match lookupField fields "params" with
  | none => ["params: Required"]
  | some (Json.obj pf) =>
    (match lookupField pf "expression" with
     | none => ["params.expression: Required"]
     | some (Json.str v) =>
       if 1 ≤ v.length then []
       else ["params.expression: String must contain at least 1 character(s)"]
     | some _ => ["params.expression: Expected string"])
  | some _ => ["params: Expected object"]

/-- Extract a string field after validation succeeded. -/
def getStr (fields : List (String × Json)) (name : String) : String :=
  match lookupField fields name with
  | some (Json.str v) => v
  | _ => ""

/-- Extract an optional string field after validation succeeded. -/
def getOptStr (fields : List (String × Json)) (name : String) : Option String :=
  match lookupField fields name with
  | some (Json.str v) => some v
  | _ => none

/-- Extract an optional JSON field. -/
def getOptJson (fields : List (String × Json)) (name : String) : Option Json :=
  lookupField fields name

/-- Extract the optional numeric timeout. -/
def getOptTimeout (fields : List (String × Json)) : Option Int :=
  match lookupField fields "timeout" with
  | some (Json.num n) => some n
  | _ => none

/-- Extract `params.expression` of `evaluate` after validation succeeded. -/
def getExpr (fields : List (String × Json)) : String :=
  match lookupField fields "params" with
  | some (Json.obj pf) => getStr pf "expression"
  | _ => ""

/-- `browserCommandSchema.safeParse` (src/types.ts lines 59-68): a
discriminated union on the `action` field, each variant validating exactly
the fields its action requires. -/
def parseCommand (urlOk : String → Bool) (j : Json) :
    Except (List String) BrowserCommand :=
  match j with
  | Json.obj fields =>
    (match lookupField fields "action" with
     | some (Json.str a) =>
       if a = "goto" then
         let issues := checkTimeout fields ++ checkUrl urlOk fields ++ checkOptRecord fields
         if issues.isEmpty then
           .ok (.goto (getStr fields "url") (getOptJson fields "params")
                 (getOptTimeout fields))
         else .error issues
       else if a = "click" then
         let issues := checkTimeout fields ++ checkStrMin1 fields "selector" ++
           checkOptStr fields "frame" ++ checkOptRecord fields
         if issues.isEmpty then
           .ok (.click (getStr fields "selector") (getOptStr fields "frame")
                 (getOptJson fields "params") (getOptTimeout fields))
         else .error issues
       else if a = "fill" then
         let issues := checkTimeout fields ++ checkStrMin1 fields "selector" ++
           checkOptStr fields "frame" ++ checkReqStr fields "text" ++
           checkOptRecord fields
         if issues.isEmpty then
           .ok (.fill (getStr fields "selector") (getOptStr fields "frame")
                 (getStr fields "text") (getOptJson fields "params")
                 (getOptTimeout fields))
         else .error issues
       else if a = "screenshot" then
         let issues := checkTimeout fields ++ checkOptRecord fields
         if issues.isEmpty then
           .ok (.screenshot (getOptJson fields "params") (getOptTimeout fields))
         else .error issues
       else if a = "content" then
         let issues := checkTimeout fields ++ checkOptStr fields "frame"
         if issues.isEmpty then
           .ok (.content (getOptStr fields "frame") (getOptTimeout fields))
         else .error issues
       else if a = "title" then
         let issues := checkTimeout fields
         if issues.isEmpty then .ok (.title (getOptTimeout fields))
         else .error issues
       else if a = "evaluate" then
         let issues := checkTimeout fields ++ checkOptStr fields "frame" ++
           checkEvalParams fields
         if issues.isEmpty then
           .ok (.evaluate (getOptStr fields "frame") (getExpr fields)
                 (getOptTimeout fields))
         else .error issues
       else if a = "closePage" then
         let issues := checkTimeout fields
         if issues.isEmpty then .ok (.closePage (getOptTimeout fields))
         else .error issues
       else .error ["action: Invalid discriminator value"]
     | _ => .error ["action: Invalid discriminator value"])
  | _ => .error ["Expected object"]

/-- The `Deno.serve` handler (browser.ts lines 427-545): bearer-token gate
on every `/api/` path, then the POST command endpoint (parse JSON, validate
against the schema, dispatch), then the GET pages listing, then 404. -/
def handleRequest (eng : Engine) (urlOk : String → Bool) (secret : String)
    (s : ProxyState) (req : HttpRequest) : HttpResponse × ProxyState :=
  if startsWithStr req.path "/api/" && !(tokenValid req.authHeader secret) then
    (⟨401, .unauthorized⟩, s)
  else
    match matchBrowserPath req.path, req.method == "POST" with
    | some pid, true =>
      (match req.body with
       | none => (⟨400, .jsonError⟩, s)
       | some j =>
         match parseCommand urlOk j with
         | .error issues => (⟨400, .validationError issues⟩, s)
         | .ok cmd =>
           let rs := executeCommand eng s (if pid = "" then "default" else pid) cmd
           (⟨200, .execResult rs.1⟩, rs.2))
    | _, _ =>
      if req.path = "/api/browser/pages" && req.method = "GET" then
        (⟨200, .pagesList (s.pages.map Prod.fst)⟩, s)
      else (⟨404, .notFound⟩, s)

/-- A concrete engine on which every call succeeds: used to evaluate the
embedding at concrete inputs. -/
def pureEngine : Engine :=
  { valid := fun _ => true
    launchErr := none
    newPageErr := fun _ => none
    initErr := fun _ => none
    gotoResult := fun _ _ => .ok Json.null
    clickErr := fun _ _ _ => none
    fillErr := fun _ _ _ _ => none
    frameSelectorResolvable := fun _ _ => true
    frameFailMsg := fun _ _ => "frameLocator: timeout"
    screenshotResult := fun _ => .ok "AAAA"
    contentResult := fun _ _ => .ok "<html></html>"
    titleResult := fun _ => .ok "Example"
    evalResult := fun _ _ _ => .ok Json.null
    closeErr := fun _ => none
    ctxCloseErr := none
    frames := fun _ => [⟨"main", "https://example.com/"⟩]
    frameByName := fun _ _ => false
    frameByUrl := fun _ _ => false }

/-- A state with one registered, initialized page `p ↦ 7`, as produced by a
successful earlier `getOrCreatePage`. -/
def onePageState : ProxyState :=
  { browserContext := some 0
    pages := [("p", 7)]
    isShuttingDown := false
    nextHandle := 8
    initialized := [7]
    closeHandlers := [("p", 7)]
    newPageLog := [7]
    closeLog := []
    ctxCloseLog := 0
    engineLog := [] }

/- ## Registry helper lemmas -/

/-- Looking up the key just inserted finds the inserted handle. -/
theorem lookupPage_insertPage_self (ps : List (String × Handle)) (pid : String)
    (h : Handle) : lookupPage (insertPage ps pid h) pid = some h := by
  induction ps with
  | nil => simp [insertPage, lookupPage]
  | cons kv rest ih =>
    obtain ⟨k, v⟩ := kv
    by_cases hk : k = pid
    · simp [insertPage, lookupPage, hk]
    · simp [insertPage, lookupPage, hk, ih]

/-- A key that is absent has no entry at all. -/
theorem lookupPage_none_forall {ps : List (String × Handle)} {pid : String}
    (hnone : lookupPage ps pid = none) : ∀ kv ∈ ps, kv.1 ≠ pid := by
  induction ps with
  | nil => intro kv hkv; cases hkv
  | cons kv0 rest ih =>
    intro kv hkv
    obtain ⟨k, v⟩ := kv0
    by_cases hk : k = pid
    · simp [lookupPage, hk] at hnone
    · simp [lookupPage, hk] at hnone
      rcases List.mem_cons.mp hkv with h1 | h1
      · subst h1; exact hk
      · exact ih hnone kv h1

/-- Deleting an absent key leaves the registry unchanged. -/
theorem removePage_of_lookup_none {ps : List (String × Handle)} {pid : String}
    (hnone : lookupPage ps pid = none) : removePage ps pid = ps := by
  unfold removePage
  apply List.filter_eq_self.mpr
  intro kv hkv
  simpa using lookupPage_none_forall hnone kv hkv

/-- Inserting an absent key appends the new entry. -/
theorem insertPage_of_lookup_none {ps : List (String × Handle)} {pid : String}
    (hnone : lookupPage ps pid = none) (h : Handle) :
    insertPage ps pid h = ps ++ [(pid, h)] := by
  induction ps with
  | nil => simp [insertPage]
  | cons kv rest ih =>
    obtain ⟨k, v⟩ := kv
    by_cases hk : k = pid
    · simp [lookupPage, hk] at hnone
    · simp [lookupPage, hk] at hnone
      simp [insertPage, hk, ih hnone]

/-- Characterization of a successful `createNewPage`: the returned handle is
the fresh counter, and each state field evolves as the creation path
dictates (registered, initialized, close handler attached). -/
theorem createNewPage_ok_spec {eng : Engine} {s : ProxyState} {pid : String}
    {h : Handle} {s' : ProxyState}
    (hok : createNewPage eng s pid = .ok (h, s')) :
    h = s.nextHandle ∧
    eng.newPageErr s.nextHandle = none ∧
    eng.initErr s.nextHandle = none ∧
    s'.pages = insertPage s.pages pid s.nextHandle ∧
    s'.browserContext = s.browserContext ∧
    s'.isShuttingDown = s.isShuttingDown ∧
    s'.nextHandle = s.nextHandle + 1 ∧
    s'.initialized = s.initialized ++ [s.nextHandle] ∧
    s'.closeHandlers = s.closeHandlers ++ [(pid, s.nextHandle)] ∧
    s'.newPageLog = s.newPageLog ++ [s.nextHandle] ∧
    s'.closeLog = s.closeLog := by
  unfold createNewPage at hok
  cases hne : eng.newPageErr s.nextHandle with
  | some e => simp [hne, logCall] at hok
  | none =>
    cases hie : eng.initErr s.nextHandle with
    | some e => simp [hne, hie, logCall] at hok
    | none =>
      simp only [hne, hie, logCall] at hok
      obtain ⟨hh, hs⟩ := Prod.mk.injEq .. ▸ (Except.ok.injEq .. ▸ hok)
      subst hh
      subst hs
      simp [hne, hie]

/-- After a successful `getOrCreatePage`, the returned handle is registered
under the identifier and the context is still initialized. -/
theorem getOrCreatePage_ok_lookup {eng : Engine} {s : ProxyState} {pid : String}
    {h : Handle} {s' : ProxyState}
    (hok : getOrCreatePage eng s pid = .ok (h, s')) :
    lookupPage s'.pages pid = some h ∧ (∃ c, s'.browserContext = some c) := by
  unfold getOrCreatePage at hok
  cases hbc : s.browserContext with
  | none => rw [hbc] at hok; simp at hok
  | some c =>
    rw [hbc] at hok
    cases hl : lookupPage s.pages pid with
    | some h0 =>
      rw [hl] at hok
      cases hv : eng.valid h0 with
      | true =>
        simp only [hv, logCall, if_true] at hok
        obtain ⟨hh, hs⟩ := by simpa using hok
        subst hh
        subst hs
        exact ⟨by simpa [lookupPage] using hl, c, hbc⟩
      | false =>
        simp only [hv, logCall, Bool.false_eq_true, if_false] at hok
        obtain ⟨hh, _, _, hp, hb, _⟩ := createNewPage_ok_spec hok
        subst hh
        constructor
        · rw [hp]; exact lookupPage_insertPage_self ..
        · exact ⟨c, by rw [hb]; exact hbc⟩
    | none =>
      rw [hl] at hok
      obtain ⟨hh, _, _, hp, hb, _⟩ := createNewPage_ok_spec hok
      subst hh
      constructor
      · rw [hp]; exact lookupPage_insertPage_self ..
      · exact ⟨c, by rw [hb]; exact hbc⟩

/-- C2: after `getOrCreatePage p` succeeds, a second `getOrCreatePage p`
with no intervening close or eviction returns the same underlying page
handle — and the only state change is the validity probe being logged, so
nothing is recreated — assuming the validity probe reports the stored
handle valid. -/
theorem getOrCreatePage_reuses_same_handle (eng : Engine) (s : ProxyState)
    (pid : String) (h : Handle) (s' : ProxyState)
    (hok : getOrCreatePage eng s pid = .ok (h, s'))
    (hv : eng.valid h = true) :
    getOrCreatePage eng s' pid = .ok (h, logCall s' (EngineCall.probe h)) ∧
    (logCall s' (EngineCall.probe h)).pages = s'.pages ∧
    (logCall s' (EngineCall.probe h)).newPageLog = s'.newPageLog := by
  obtain ⟨hl, c, hbc⟩ := getOrCreatePage_ok_lookup hok
  refine ⟨?_, rfl, rfl⟩
  unfold getOrCreatePage
  rw [hbc, hl]
  simp [hv]

/-- Witness for C2 at a concrete input: a registered valid page `p ↦ 7` is
returned unchanged by a second `getOrCreatePage`. -/
theorem getOrCreatePage_reuses_same_handle_witness :
    getOrCreatePage pureEngine (logCall onePageState (EngineCall.probe 7)) "p" =
      .ok (7, logCall (logCall onePageState (EngineCall.probe 7)) (EngineCall.probe 7)) :=
  (getOrCreatePage_reuses_same_handle pureEngine onePageState "p" 7
    (logCall onePageState (EngineCall.probe 7)) rfl rfl).1

/-- A successful `createNewPage`, written as an explicit equation. -/
theorem createNewPage_eq_ok (eng : Engine) (s : ProxyState) (pid : String)
    (hnp : eng.newPageErr s.nextHandle = none)
    (hip : eng.initErr s.nextHandle = none) :
    createNewPage eng s pid = .ok (s.nextHandle,
      { s with nextHandle := s.nextHandle + 1
               newPageLog := s.newPageLog ++ [s.nextHandle]
               engineLog := (s.engineLog ++ [EngineCall.newPage s.nextHandle]) ++
                 [EngineCall.initPage s.nextHandle]
               initialized := s.initialized ++ [s.nextHandle]
               closeHandlers := s.closeHandlers ++ [(pid, s.nextHandle)]
               pages := insertPage s.pages pid s.nextHandle }) := by
  simp only [createNewPage, logCall, hnp, hip]

/-- C3: for an identifier registered with a handle the validity probe
reports invalid, the next `getOrCreatePage` evicts the stale entry and
returns a newly created, initialized page (with its close handler
registered) without surfacing an error to the caller — provided the engine
can create and initialize the replacement. -/
theorem getOrCreatePage_replaces_invalid (eng : Engine) (s : ProxyState)
    (pid : String) (h : Handle) (c : Nat)
    (hbc : s.browserContext = some c)
    (hl : lookupPage s.pages pid = some h)
    (hinv : eng.valid h = false)
    (hnp : eng.newPageErr s.nextHandle = none)
    (hip : eng.initErr s.nextHandle = none) :
    ∃ s', getOrCreatePage eng s pid = .ok (s.nextHandle, s') ∧
      s'.pages = insertPage (removePage s.pages pid) pid s.nextHandle ∧
      lookupPage s'.pages pid = some s.nextHandle ∧
      s.nextHandle ∈ s'.initialized ∧
      (pid, s.nextHandle) ∈ s'.closeHandlers ∧
      s'.newPageLog = s.newPageLog ++ [s.nextHandle] := by
  have hgoc : getOrCreatePage eng s pid =
      createNewPage eng
        { logCall s (EngineCall.probe h) with
          pages := removePage (logCall s (EngineCall.probe h)).pages pid } pid := by
    unfold getOrCreatePage
    rw [hbc, hl]
    simp [hinv]
  have hc := createNewPage_eq_ok eng
    { logCall s (EngineCall.probe h) with
      pages := removePage (logCall s (EngineCall.probe h)).pages pid } pid hnp hip
  rw [hc] at hgoc
  refine ⟨_, hgoc, ?_, ?_, ?_, ?_, ?_⟩
  · simp [logCall]
  · exact lookupPage_insertPage_self ..
  · simp [logCall]
  · simp [logCall]
  · simp [logCall]

/-- Witness for C3 at a concrete input: with `p ↦ 7` registered and the
probe reporting invalid, `getOrCreatePage` returns the fresh handle 8. -/
theorem getOrCreatePage_replaces_invalid_witness :
    ∃ s', getOrCreatePage { pureEngine with valid := fun _ => false }
        onePageState "p" = .ok (8, s') ∧
      s'.pages = insertPage (removePage onePageState.pages "p") "p" 8 ∧
      lookupPage s'.pages "p" = some 8 ∧
      8 ∈ s'.initialized ∧
      ("p", 8) ∈ s'.closeHandlers ∧
      s'.newPageLog = onePageState.newPageLog ++ [8] :=
  getOrCreatePage_replaces_invalid { pureEngine with valid := fun _ => false }
    onePageState "p" 7 0 rfl rfl rfl rfl rfl

/-- C1: `executeCommand` never throws past the dispatcher boundary: for
every page identifier, command and engine behaviour it returns either a
success or a failure envelope; every error thrown inside the body —
including the registry failure when the session was never started — is
converted into the `success: false` envelope with the thrown message. -/
theorem executeCommand_never_throws (eng : Engine) (s : ProxyState)
    (pid : String) (cmd : BrowserCommand) :
    ((∃ v s', executeCommand eng s pid cmd = (.success v, s')) ∨
     (∃ e s', executeCommand eng s pid cmd = (.failure e, s'))) ∧
    (∀ e s', s.isShuttingDown = false →
       executeCommandBody eng s pid cmd = .error (e, s') →
       executeCommand eng s pid cmd = (.failure e, s')) ∧
    (s.browserContext = none → s.isShuttingDown = false →
       executeCommand eng s pid cmd =
         (.failure "Browser context not initialized", s)) := by
  refine ⟨?_, ?_, ?_⟩
  · unfold executeCommand
    cases hsd : s.isShuttingDown with
    | true => exact Or.inr ⟨"Server is shutting down", s, by simp⟩
    | false =>
      cases hbody : executeCommandBody eng s pid cmd with
      | ok vs => exact Or.inl ⟨vs.1, vs.2, by simp [hbody]⟩
      | error es => exact Or.inr ⟨es.1, es.2, by simp [hbody]⟩
  · intro e s' hsd hbody
    simp [executeCommand, hsd, hbody]
  · intro hbc hsd
    simp [executeCommand, executeCommandBody, getOrCreatePage, hbc, hsd]

/-- Witness for C1 at a concrete input: with the browser context never
started, dispatching `title` yields the registry failure as an envelope. -/
theorem executeCommand_never_throws_witness :
    executeCommand pureEngine initialState "x" (BrowserCommand.title none) =
      (.failure "Browser context not initialized", initialState) :=
  (executeCommand_never_throws pureEngine initialState "x"
    (BrowserCommand.title none)).2.2 rfl rfl

/-- C7: once the shutting-down flag is set, every `executeCommand` returns
the shutting-down failure envelope immediately, with the state untouched —
so no page is resolved or created and no engine call is logged. -/
theorem executeCommand_rejects_during_shutdown (eng : Engine) (s : ProxyState)
    (pid : String) (cmd : BrowserCommand)
    (hsd : s.isShuttingDown = true) :
    executeCommand eng s pid cmd = (.failure "Server is shutting down", s) := by
  simp [executeCommand, hsd]

/-- Witness for C7 at a concrete input. -/
theorem executeCommand_rejects_during_shutdown_witness :
    executeCommand pureEngine { onePageState with isShuttingDown := true } "p"
        (BrowserCommand.goto "https://example.com/" none none) =
      (.failure "Server is shutting down",
        { onePageState with isShuttingDown := true }) :=
  executeCommand_rejects_during_shutdown pureEngine
    { onePageState with isShuttingDown := true } "p"
    (BrowserCommand.goto "https://example.com/" none none) rfl

/-- A single shutdown sweep step records exactly one close call and leaves
the flag, the context and the context-close count alone. -/
theorem shutdownStep_fields (eng : Engine) (s : ProxyState)
    (entry : String × Handle) :
    (shutdownStep eng s entry).isShuttingDown = s.isShuttingDown ∧
    (shutdownStep eng s entry).ctxCloseLog = s.ctxCloseLog ∧
    (shutdownStep eng s entry).closeLog = s.closeLog ++ [entry.2] ∧
    (shutdownStep eng s entry).browserContext = s.browserContext := by
  unfold shutdownStep doClose
  cases eng.closeErr entry.2 with
  | some e => simp
  | none => simp [fireCloseHandlers, removePage]

/-- The shutdown page sweep closes exactly the handles of the snapshot, in
order, and touches neither the flag, the context, nor the context-close
count. -/
theorem foldl_shutdownStep_fields (eng : Engine) (l : List (String × Handle))
    (s0 : ProxyState) :
    (l.foldl (shutdownStep eng) s0).isShuttingDown = s0.isShuttingDown ∧
    (l.foldl (shutdownStep eng) s0).ctxCloseLog = s0.ctxCloseLog ∧
    (l.foldl (shutdownStep eng) s0).closeLog = s0.closeLog ++ l.map Prod.snd ∧
    (l.foldl (shutdownStep eng) s0).browserContext = s0.browserContext := by
  induction l generalizing s0 with
  | nil => simp
  | cons e rest ih =>
    obtain ⟨h1, h2, h3, h4⟩ := ih (shutdownStep eng s0 e)
    obtain ⟨g1, g2, g3, g4⟩ := shutdownStep_fields eng s0 e
    refine ⟨?_, ?_, ?_, ?_⟩ <;>
      simp [List.foldl_cons, h1, h2, h3, h4, g1, g2, g3, g4, List.append_assoc]

/-- `shutdown` on a state already marked shutting down is a no-op. -/
theorem shutdown_noop_of_flag (eng : Engine) (t : ProxyState)
    (h : t.isShuttingDown = true) : shutdown eng t = t := by
  simp [shutdown, h]

/-- After any `shutdown` call the shutting-down flag is set. -/
theorem shutdown_flag (eng : Engine) (s : ProxyState) :
    (shutdown eng s).isShuttingDown = true := by
  unfold shutdown
  cases hsd : s.isShuttingDown with
  | true => simpa using hsd
  | false =>
    simp only [Bool.false_eq_true, if_false]
    obtain ⟨hf, -, -, -⟩ :=
      foldl_shutdownStep_fields eng s.pages { s with isShuttingDown := true }
    cases hb : (s.pages.foldl (shutdownStep eng)
        { s with isShuttingDown := true }).browserContext with
    | none => simpa [hb] using hf
    | some c =>
      cases he : eng.ctxCloseErr with
      | some e => simp only [hb, he]; simpa using hf
      | none => simp only [hb, he]; simpa using hf

/-- C4: shutdown is idempotent — a second invocation after one has run
performs no work — and one invocation runs exactly one close sequence:
every registered page handle is closed exactly once (hence at most once
when the handles are distinct) and the browser context is closed at most
once. -/
theorem shutdown_idempotent (eng : Engine) (s : ProxyState) :
    shutdown eng (shutdown eng s) = shutdown eng s ∧
    (s.isShuttingDown = false →
      (shutdown eng s).closeLog = s.closeLog ++ s.pages.map Prod.snd) ∧
    (s.isShuttingDown = false → s.closeLog = [] →
      (s.pages.map Prod.snd).Nodup → (shutdown eng s).closeLog.Nodup) ∧
    (s.ctxCloseLog = 0 → (shutdown eng s).ctxCloseLog ≤ 1) := by
  have hclose : s.isShuttingDown = false →
      (shutdown eng s).closeLog = s.closeLog ++ s.pages.map Prod.snd := by
    intro hsd
    unfold shutdown
    rw [hsd]
    simp only [Bool.false_eq_true, if_false]
    obtain ⟨-, -, hcl, -⟩ :=
      foldl_shutdownStep_fields eng s.pages { s with isShuttingDown := true }
    cases hb : (s.pages.foldl (shutdownStep eng)
        { s with isShuttingDown := true }).browserContext with
    | none => simpa [hb] using hcl
    | some c =>
      cases he : eng.ctxCloseErr with
      | some e => simp only [hb, he]; simpa using hcl
      | none => simp only [hb, he]; simpa using hcl
  refine ⟨shutdown_noop_of_flag eng _ (shutdown_flag eng s), hclose, ?_, ?_⟩
  · intro hsd hcl0 hnd
    rw [hclose hsd, hcl0]
    simpa using hnd
  · intro hctx0
    cases hsd : s.isShuttingDown with
    | true => rw [shutdown_noop_of_flag eng s hsd, hctx0]; exact Nat.zero_le 1
    | false =>
      unfold shutdown
      rw [hsd]
      simp only [Bool.false_eq_true, if_false]
      obtain ⟨-, hcc, -, -⟩ :=
        foldl_shutdownStep_fields eng s.pages { s with isShuttingDown := true }
      have hcc' : (List.foldl (shutdownStep eng) { s with isShuttingDown := true }
          s.pages).ctxCloseLog = s.ctxCloseLog := by simpa using hcc
      set s1 := List.foldl (shutdownStep eng) { s with isShuttingDown := true }
        s.pages with hs1
      cases hb : s1.browserContext with
      | none =>
        simp only [hb]
        rw [hcc', hctx0]
        exact Nat.zero_le 1
      | some c =>
        cases he : eng.ctxCloseErr with
        | some e =>
          simp only [hb, he]
          show s1.ctxCloseLog + 1 ≤ 1
          rw [hcc', hctx0]
        | none =>
          simp only [hb, he]
          show s1.ctxCloseLog + 1 ≤ 1
          rw [hcc', hctx0]

/-- Witness for C4 at a concrete input: shutting down `onePageState` closes
page handle 7 exactly once and the context at most once. -/
theorem shutdown_idempotent_witness :
    (shutdown pureEngine onePageState).closeLog =
      onePageState.closeLog ++ onePageState.pages.map Prod.snd ∧
    (shutdown pureEngine onePageState).closeLog.Nodup ∧
    (shutdown pureEngine onePageState).ctxCloseLog ≤ 1 := by
  have h := shutdown_idempotent pureEngine onePageState
  exact ⟨h.2.1 rfl, h.2.2.1 rfl rfl (by decide), h.2.2.2 rfl⟩

/-- Every list is a prefix of itself under the boolean test. -/
theorem isPrefixOf_self (l : List Char) : l.isPrefixOf l = true := by
  induction l with
  | nil => rfl
  | cons c rest ih => simp [List.isPrefixOf, ih]

/-- The needle occurs in itself. -/
theorem infixAux_self (b : List Char) : infixAux b b = true := by
  cases b with
  | nil => rfl
  | cons c rest => simp [infixAux, isPrefixOf_self]

/-- The needle occurs in any haystack that ends with it. -/
theorem infixAux_append_right (b : List Char) :
    ∀ a : List Char, infixAux b (a ++ b) = true
  | [] => by simpa using infixAux_self b
  | c :: a' => by simp [infixAux, infixAux_append_right b a']

/-- Appending characters on the left preserves the string-level view. -/
theorem toList_append_eq (a b : String) :
    (a ++ b).toList = a.toList ++ b.toList := by
  cases a
  cases b
  rfl

/-- A string contains any suffix of itself as a substring. -/
theorem containsSubstr_append_right (a b : String) :
    containsSubstr (a ++ b) b = true := by
  unfold containsSubstr
  rw [toList_append_eq]
  exact infixAux_append_right b.toList a.toList

/-- The engine whose click/fill failures carry a message that does not
mention `frameLocator`, with one frame named `main` on every page. -/
def timeoutEngine : Engine :=
  { pureEngine with
    frameSelectorResolvable := fun _ _ => false
    frameFailMsg := fun _ _ => "Timeout 30000ms exceeded." }

/-- Counterexample to C5 as stated: clicking inside an unresolvable frame
can return the raw engine failure, whose message does not contain the
enumeration of available frames (here `main`), because the click branch
only rewrites the error when the engine message mentions `frameLocator`. -/
theorem frame_error_enumeration_counterexample :
    (executeCommand timeoutEngine onePageState "p"
        (BrowserCommand.click "#btn" (some "#frm") none none)).1 =
      ExecutionResult.failure "Timeout 30000ms exceeded." ∧
    availableFramesStr timeoutEngine 7 = "main" ∧
    containsSubstr "Timeout 30000ms exceeded." "main" = false := by
  refine ⟨rfl, rfl, by decide⟩

/-- C5 as amended: the frame-not-found failures of `content` and
`evaluate` always carry the enumeration of the currently available frames;
for `click` and `fill` the enumerating message is produced exactly when
the failure message from the engine mentions `frameLocator`.  The constructed
message contains the enumeration as a substring. -/
theorem frame_error_enumeration (eng : Engine) (s : ProxyState) (pid : String)
    (h : Handle) (c : Nat) (f : String)
    (hbc : s.browserContext = some c)
    (hl : lookupPage s.pages pid = some h)
    (hv : eng.valid h = true)
    (hsd : s.isShuttingDown = false) :
    (eng.frameByName h f = false → eng.frameByUrl h f = false → ∀ t,
      (executeCommand eng s pid (BrowserCommand.content (some f) t)).1 =
        .failure (frameNotFoundMsg eng h f)) ∧
    (eng.frameByName h f = false → ∀ ex t,
      (executeCommand eng s pid (BrowserCommand.evaluate (some f) ex t)).1 =
        .failure (frameNotFoundMsg eng h f)) ∧
    (eng.frameSelectorResolvable h f = false →
      containsSubstr (eng.frameFailMsg h f) "frameLocator" = true →
      ∀ sel p t,
        (executeCommand eng s pid (BrowserCommand.click sel (some f) p t)).1 =
          .failure (frameNotFoundMsg eng h f)) ∧
    (eng.frameSelectorResolvable h f = false →
      containsSubstr (eng.frameFailMsg h f) "frameLocator" = true →
      ∀ sel txt p t,
        (executeCommand eng s pid (BrowserCommand.fill sel (some f) txt p t)).1 =
          .failure (frameNotFoundMsg eng h f)) ∧
    containsSubstr (frameNotFoundMsg eng h f) (availableFramesStr eng h) = true := by
  have hgoc : getOrCreatePage eng s pid = .ok (h, logCall s (EngineCall.probe h)) := by
    unfold getOrCreatePage
    rw [hbc, hl]
    simp [hv]
  refine ⟨?_, ?_, ?_, ?_, containsSubstr_append_right _ _⟩
  · intro hn hu t
    simp [executeCommand, executeCommandBody, hgoc, hsd, hn, hu]
  · intro hn ex t
    simp [executeCommand, executeCommandBody, hgoc, hsd, hn]
  · intro hres hmsg sel p t
    simp [executeCommand, executeCommandBody, hgoc, hsd, clickOutcome, hres,
      rethrowFrameErr, hmsg]
  · intro hres hmsg sel txt p t
    simp [executeCommand, executeCommandBody, hgoc, hsd, fillOutcome, hres,
      rethrowFrameErr, hmsg]

/-- Witness for the amended C5 at a concrete input: `content` on a missing
frame returns the enumerating message. -/
theorem frame_error_enumeration_witness :
    (executeCommand pureEngine onePageState "p"
        (BrowserCommand.content (some "nav") none)).1 =
      .failure (frameNotFoundMsg pureEngine 7 "nav") :=
  (frame_error_enumeration pureEngine onePageState "p" 7 0 "nav"
    rfl rfl rfl rfl).1 rfl rfl none

/-- The registry after close handlers fire, as a filter. -/
theorem fireCloseHandlers_pages (s : ProxyState) (h : Handle) :
    (fireCloseHandlers s h).pages =
      s.pages.filter (fun kv => ¬ ((kv.1, h) ∈ s.closeHandlers)) := rfl

/-- When no registered entry has a close handler for the handle, firing the
close event changes nothing. -/
theorem fireCloseHandlers_eq_self (s : ProxyState) (h : Handle)
    (hnone : ∀ kv ∈ s.pages, (kv.1, h) ∉ s.closeHandlers) :
    fireCloseHandlers s h = s := by
  unfold fireCloseHandlers
  have : s.pages.filter (fun kv => ¬ ((kv.1, h) ∈ s.closeHandlers)) = s.pages := by
    apply List.filter_eq_self.mpr
    intro kv hkv
    simpa using hnone kv hkv
  rw [this]

/-- A successful `closePage` dispatch: close the resolved page (handlers
fire) and evict the identifier. -/
theorem executeCommand_closePage_ok (eng : Engine) (s : ProxyState)
    (pid : String) (t : Option Int) (h : Handle) (s1 : ProxyState)
    (hsd : s.isShuttingDown = false)
    (hgoc : getOrCreatePage eng s pid = .ok (h, s1))
    (hce : eng.closeErr h = none) :
    executeCommand eng s pid (BrowserCommand.closePage t) =
      (.success none,
        { fireCloseHandlers
            { s1 with closeLog := s1.closeLog ++ [h]
                      engineLog := s1.engineLog ++ [EngineCall.close h] } h with
          pages := removePage (fireCloseHandlers
            { s1 with closeLog := s1.closeLog ++ [h]
                      engineLog := s1.engineLog ++ [EngineCall.close h] } h).pages
            pid }) := by
  simp [executeCommand, executeCommandBody, hsd, hgoc, doClose, hce]

/-- Counterexample to C6 as stated: dispatching `closePage` for an absent
identifier on an empty registry does create a page (handle 1 appears in
the creation log) and does close it (handle 1 appears in the close log). -/
theorem closePage_absent_counterexample :
    (executeCommand pureEngine { initialState with browserContext := some 0 } "x"
        (BrowserCommand.closePage none)).2.newPageLog = [1] ∧
    (executeCommand pureEngine { initialState with browserContext := some 0 } "x"
        (BrowserCommand.closePage none)).2.closeLog = [1] := by
  decide

/-- C6 as amended: dispatching `closePage` for an absent identifier leaves
the registry map unchanged and succeeds, but — because the dispatcher
resolves the page through `getOrCreatePage` before switching on the
action — it first creates and initializes a fresh page and then closes
it. -/
theorem closePage_absent_registry_unchanged (eng : Engine) (s : ProxyState)
    (pid : String) (c : Nat) (t : Option Int)
    (hbc : s.browserContext = some c)
    (hl : lookupPage s.pages pid = none)
    (hsd : s.isShuttingDown = false)
    (hnp : eng.newPageErr s.nextHandle = none)
    (hip : eng.initErr s.nextHandle = none)
    (hce : eng.closeErr s.nextHandle = none)
    (hfresh : ∀ k, (k, s.nextHandle) ∉ s.closeHandlers) :
    ∃ s', executeCommand eng s pid (BrowserCommand.closePage t) =
        (.success none, s') ∧
      s'.pages = s.pages ∧
      s'.newPageLog = s.newPageLog ++ [s.nextHandle] ∧
      s'.closeLog = s.closeLog ++ [s.nextHandle] := by
  have hpid : ∀ kv ∈ s.pages, kv.1 ≠ pid := lookupPage_none_forall hl
  have hgoc : getOrCreatePage eng s pid = createNewPage eng s pid := by
    unfold getOrCreatePage
    rw [hbc, hl]
  rw [createNewPage_eq_ok eng s pid hnp hip] at hgoc
  have hmain := executeCommand_closePage_ok eng s pid t s.nextHandle _ hsd hgoc hce
  refine ⟨_, hmain, ?_, ?_, ?_⟩
  · show removePage (fireCloseHandlers _ s.nextHandle).pages pid = s.pages
    rw [fireCloseHandlers_pages]
    show ((insertPage s.pages pid s.nextHandle).filter
      (fun kv => ¬ ((kv.1, s.nextHandle) ∈ s.closeHandlers ++ [(pid, s.nextHandle)]))).filter
        (fun kv => kv.1 ≠ pid) = s.pages
    rw [insertPage_of_lookup_none hl, List.filter_append]
    have h1 : s.pages.filter
        (fun kv => ¬ ((kv.1, s.nextHandle) ∈ s.closeHandlers ++ [(pid, s.nextHandle)])) =
        s.pages := by
      apply List.filter_eq_self.mpr
      intro kv hkv
      simp only [List.mem_append, List.mem_singleton, Prod.mk.injEq, decide_eq_true_eq,
        not_or]
      exact ⟨hfresh kv.1, fun hp => hpid kv hkv hp.1⟩
    have h2 : ([(pid, s.nextHandle)] :
        List (String × Handle)).filter
        (fun kv => ¬ ((kv.1, s.nextHandle) ∈ s.closeHandlers ++ [(pid, s.nextHandle)])) =
        [] := by
      simp
    rw [h1, h2, List.append_nil]
    apply List.filter_eq_self.mpr
    intro kv hkv
    simpa using hpid kv hkv
  · rfl
  · rfl

/-- Witness for the amended C6 at a concrete input. -/
theorem closePage_absent_registry_unchanged_witness :
    ∃ s', executeCommand pureEngine { initialState with browserContext := some 0 }
        "x" (BrowserCommand.closePage none) = (.success none, s') ∧
      s'.pages = ({ initialState with browserContext := some 0 } : ProxyState).pages ∧
      s'.newPageLog =
        ({ initialState with browserContext := some 0 } : ProxyState).newPageLog ++ [1] ∧
      s'.closeLog =
        ({ initialState with browserContext := some 0 } : ProxyState).closeLog ++ [1] :=
  closePage_absent_registry_unchanged pureEngine
    { initialState with browserContext := some 0 } "x" 0 none
    rfl rfl rfl rfl rfl rfl (by intro k; simp [initialState])

/-- An opaque URL-validity predicate accepting everything, for concrete
evaluation. -/
def anyUrl : String → Bool := fun _ => true

/-- C9: an HTTP request on an `/api/` path without a bearer token equal to
the configured secret is answered 401 with the state untouched — the
dispatcher and the Page Registry are never reached. -/
theorem unauthorized_api_rejected (eng : Engine) (urlOk : String → Bool)
    (secret : String) (s : ProxyState) (req : HttpRequest)
    (hp : startsWithStr req.path "/api/" = true)
    (htok : tokenValid req.authHeader secret = false) :
    handleRequest eng urlOk secret s req = (⟨401, .unauthorized⟩, s) := by
  simp [handleRequest, hp, htok]

/-- Witness for C9 at a concrete input: a request with no Authorization
header against `/api/browser/tab1` is answered 401. -/
theorem unauthorized_api_rejected_witness :
    handleRequest pureEngine anyUrl "s3cret" onePageState
        { method := "POST", path := "/api/browser/tab1", authHeader := none,
          body := none } =
      (⟨401, .unauthorized⟩, onePageState) :=
  unauthorized_api_rejected pureEngine anyUrl "s3cret" onePageState
    { method := "POST", path := "/api/browser/tab1", authHeader := none,
      body := none } rfl rfl

/-- C8: a POST to `/api/browser/:pageId` whose JSON body does not conform
to the command schema is answered 400 carrying the validation issues, and
a body on which JSON parsing throws is answered 400 as well; in both cases
the state is untouched, so neither the dispatcher, the Page Registry, nor
any engine call is reached. -/
theorem invalid_body_rejected (eng : Engine) (urlOk : String → Bool)
    (secret : String) (s : ProxyState) (req : HttpRequest) (pidSeg : String)
    (hpm : matchBrowserPath req.path = some pidSeg)
    (hmethod : req.method = "POST")
    (htok : tokenValid req.authHeader secret = true) :
    (∀ j issues, req.body = some j → parseCommand urlOk j = .error issues →
      handleRequest eng urlOk secret s req = (⟨400, .validationError issues⟩, s)) ∧
    (req.body = none → handleRequest eng urlOk secret s req = (⟨400, .jsonError⟩, s)) := by
  constructor
  · intro j issues hb hparse
    simp [handleRequest, htok, hpm, hmethod, hb, hparse]
  · intro hb
    simp [handleRequest, htok, hpm, hmethod, hb]

/-- Witness for C8 at a concrete input: a body with no `action` tag is
rejected with a discriminator issue and the state is unchanged. -/
theorem invalid_body_rejected_witness :
    handleRequest pureEngine anyUrl "s3cret" onePageState
        { method := "POST", path := "/api/browser/tab1",
          authHeader := some "Bearer s3cret",
          body := some (Json.obj [("url", Json.str "https://example.com/")]) } =
      (⟨400, .validationError ["action: Invalid discriminator value"]⟩,
        onePageState) :=
  (invalid_body_rejected pureEngine anyUrl "s3cret" onePageState
    { method := "POST", path := "/api/browser/tab1",
      authHeader := some "Bearer s3cret",
      body := some (Json.obj [("url", Json.str "https://example.com/")]) }
    "tab1" rfl rfl rfl).1
    (Json.obj [("url", Json.str "https://example.com/")])
    ["action: Invalid discriminator value"] rfl rfl

/-- The proxy state right after `setupBrowser` ran from `initialState`:
the context is up and the registry holds the default page under handle 1,
not initialized, with no close handler. -/
def startupState : ProxyState :=
  { browserContext := some 0
    pages := [("default", 1)]
    isShuttingDown := false
    nextHandle := 2
    initialized := []
    closeHandlers := []
    newPageLog := [1]
    closeLog := []
    ctxCloseLog := 0
    engineLog := [EngineCall.launch, EngineCall.newPage 1] }

/-- An engine whose validity probe reports every handle invalid. -/
def deadProbeEngine : Engine :=
  { pureEngine with valid := fun _ => false }

/-- C10: the default page created at startup is registered under
`default` without the page-initialization hook and without a registered
close-notification handler, so an external close of the default tab does
not evict the entry; it is replaced only when the validity probe reports
it invalid during the next `getOrCreatePage "default"` — which then
produces an initialized page with a close handler, as every
`getOrCreatePage`-created page is. -/
theorem default_page_skips_init_and_close_handler (eng : Engine)
    (hlaunch : eng.launchErr = none)
    (hnp1 : eng.newPageErr 1 = none) :
    setupBrowser eng initialState = .ok (0, startupState) ∧
    lookupPage startupState.pages "default" = some 1 ∧
    1 ∉ startupState.initialized ∧
    (∀ k, (k, 1) ∉ startupState.closeHandlers) ∧
    externalClose startupState 1 = startupState ∧
    (eng.valid 1 = false → eng.newPageErr 2 = none → eng.initErr 2 = none →
      ∃ s1, getOrCreatePage eng startupState "default" = .ok (2, s1) ∧
        lookupPage s1.pages "default" = some 2 ∧
        2 ∈ s1.initialized ∧ ("default", 2) ∈ s1.closeHandlers) := by
  refine ⟨?_, by decide, by decide, by intro k; simp [startupState], ?_, ?_⟩
  · simp [setupBrowser, initialState, startupState, logCall, hlaunch, hnp1, insertPage]
  · exact fireCloseHandlers_eq_self startupState 1 (by decide)
  · intro hv hnp2 hip2
    obtain ⟨s1, hok, -, hlook, hinit, hch, -⟩ :=
      getOrCreatePage_replaces_invalid eng startupState "default" 1 0 rfl rfl hv hnp2 hip2
    exact ⟨s1, hok, hlook, hinit, hch⟩

/-- Witness for C10 at a concrete input, with an engine whose probe
reports the externally closed default tab invalid. -/
theorem default_page_skips_init_and_close_handler_witness :
    setupBrowser deadProbeEngine initialState = .ok (0, startupState) ∧
    externalClose startupState 1 = startupState ∧
    (∃ s1, getOrCreatePage deadProbeEngine startupState "default" = .ok (2, s1) ∧
      lookupPage s1.pages "default" = some 2 ∧
      2 ∈ s1.initialized ∧ ("default", 2) ∈ s1.closeHandlers) := by
  have h := default_page_skips_init_and_close_handler deadProbeEngine rfl rfl
  exact ⟨h.1, h.2.2.2.2.1, h.2.2.2.2.2 rfl rfl rfl⟩

end BrowseTogether
